import Mathlib

/-!
Shallow embedding of the storage bring-up sequence of
`boards/arm/stm32h7/josh/src/stm32_bringup.c` (CarletonURocketry/josh-nx),
together with theorems settling the specification claims about it.

The external collaborators (partition parsing, block-partition registration,
mounting, sensor and procfs setup) are not part of this repository; they are
represented by their interface contracts: the partition parsing facility walks
the partition table once and invokes the callback once per entry; every other
external call is represented by its return code, supplied as an input in
`BringupEnv`.  The configuration modelled is the one all the claims speak
about: `CONFIG_STM32H7_SDMMC`, the MS56XX sensor and procfs enabled.

The `static` array `partitions` inside `stm32_bringup` is modelled by
threading its state explicitly: `stm32_bringup` takes the current contents of
the two array slots and returns the updated contents, and `partitions_init`
is the value of the one-time static initializer.
-/

set_option autoImplicit false

namespace JoshNx

/-- POSIX errno value `ENOENT` (no such entry), as used by the source to mark
a partition request that has not (yet) been found. -/
def ENOENT : Nat := 2

/-- NuttX success status `OK`. -/
def OK : Int := 0

/-- The fields of `struct partition_s` that the source reads: the partition's
index, its first block, and its number of blocks.  The interface exposes the
index as an `int`. -/
structure partition_s where
  index : Int
  firstblock : Nat
  nblocks : Nat
  deriving DecidableEq

/-- The callback state `partition_state_t` of the source: the expected
partition number (an `int`) and the error byte, initialized to `ENOENT` and
set to `0` when the partition is matched. -/
structure partition_state_t where
  partition_num : Int
  err : Nat
  deriving DecidableEq

/-- One invocation of the block-partition registrar
`register_blockpartition(devname, 0, "/dev/mmcsd0", firstblock, nblocks)`:
the child device name, the minor number, the parent device, and the block
range `[firstblock, firstblock + nblocks)`. -/
structure Registration where
  devname : List Char
  minor : Nat
  parent : String
  firstblock : Nat
  nblocks : Nat
  deriving DecidableEq

/-- The device-name template `char devname[] = "/dev/mmcsd0p0"` of the
source, as its list of characters (the terminating NUL is not modelled; the
source writes index `sizeof(devname) - 2 = 12`, the final digit). -/
def devnameTemplate : List Char := "/dev/mmcsd0p0".data

/-- The callback `partition_handler` of the source.  When the expected
partition number is below 10 and the encountered entry's index equals it, the
handler substitutes `partition_num + 48` for the template's final digit
(modelled with the C truncation of an `int` stored into a `char`), invokes
the registrar, and sets `err` to 0.  `regRet` is the registrar's return
value; the source discards it, so the result does not depend on it.  The
result is the updated callback state and the registrar invocations made. -/
def partition_handler (regRet : Int) (part : partition_s)
    (st : partition_state_t) : partition_state_t × List Registration :=
  if st.partition_num < 10 ∧ part.index = st.partition_num then
    (⟨st.partition_num, 0⟩,
      [⟨devnameTemplate.set 12 (Char.ofNat (((st.partition_num + 48) % 256).toNat)),
        0, "/dev/mmcsd0", part.firstblock, part.nblocks⟩])
  else
    (st, [])

/-- The partition parsing facility `parse_block_partition` applied to the
device's partition table: it walks the table once and invokes
`partition_handler` once per entry, threading the callback state; the
registrar invocations of all entries are collected in order. -/
def parse_block_partition (regRet : Int) (table : List partition_s)
    (st : partition_state_t) : partition_state_t × List Registration :=
  match table with
  | [] => (st, [])
  | p :: rest =>
    let h := partition_handler regRet p st
    let r := parse_block_partition regRet rest h.1
    (r.1, h.2 ++ r.2)

/-- Observable steps of `stm32_bringup`, in the order the source performs
them.  `pwrfsMounted` is the littlefs mount of `/dev/mmcsd0p1`; it is
commented out in the source and therefore never occurs in any trace. -/
inductive Event where
  | sensorRegistered (ret : Int)
  | procfsMounted (ret : Int)
  | sdioInitialized (ret : Int)
  | parseCalled (num : Int)
  | blockPartitionRegistered (r : Registration)
  | logPartitionRegistered (num : Int) (registered : Bool)
  | usrfsMounted (ret : Int)
  | pwrfsMounted (ret : Int)
  deriving DecidableEq

/-- Recognizes an invocation of the partition parsing facility. -/
def Event.isParseCall : Event → Bool
  | Event.parseCalled _ => true
  | _ => false

/-- Recognizes an attempt to mount the power-safe (littlefs) filesystem. -/
def Event.isPwrfsMount : Event → Bool
  | Event.pwrfsMounted _ => true
  | _ => false

/-- Return codes of the external calls `stm32_bringup` makes, and the
partition table the parsing facility reports for `/dev/mmcsd0`.  `reg_ret` is
what the block-partition registrar returns (discarded by the source);
`mount_usrfs_ret` is what `nx_mount` of the vfat user-data filesystem
returns. -/
structure BringupEnv where
  ms56xx_ret : Int
  procfs_ret : Int
  sdio_ret : Int
  table : List partition_s
  reg_ret : Int
  mount_usrfs_ret : Int
  deriving DecidableEq

/-- One iteration of the discovery loop of the source: invoke the partition
parsing facility on `/dev/mmcsd0` with the slot's state, then log whether the
slot registered (`err == ENOENT` means it did not). -/
def loopStep (regRet : Int) (table : List partition_s)
    (st : partition_state_t) : partition_state_t × List Event :=
  let pr := parse_block_partition regRet table st
  (pr.1,
    Event.parseCalled st.partition_num ::
      (pr.2.map Event.blockPartitionRegistered ++
        [if pr.1.err = ENOENT then
            Event.logPartitionRegistered pr.1.partition_num false
          else
            Event.logPartitionRegistered pr.1.partition_num true]))

/-- The one-time initializer of the static array `partitions`: slot 0 expects
partition 0, slot 1 expects partition 1, both starting at `err = ENOENT`. -/
def partitions_init : partition_state_t × partition_state_t :=
  (⟨0, ENOENT⟩, ⟨1, ENOENT⟩)

/-- `stm32_bringup` of the source: sensor registration, procfs mount and
sdio initialization are performed and their failures only logged (the local
`ret` is overwritten by each later step); the discovery loop then runs over
the two slots of the static `partitions` array; finally `/dev/mmcsd0p0` is
mounted vfat on `/mnt/usrfs` and a nonzero mount status is returned
immediately, otherwise `OK`.  The littlefs mount of `/dev/mmcsd0p1` is
commented out in the source and does not occur.  Result: the returned status,
the final contents of the static array, and the trace of observable steps. -/
def stm32_bringup (env : BringupEnv) (p0 p1 : partition_state_t) :
    Int × (partition_state_t × partition_state_t) × List Event :=
  let l0 := loopStep env.reg_ret env.table p0
  let l1 := loopStep env.reg_ret env.table p1
  let trace := Event.sensorRegistered env.ms56xx_ret ::
    Event.procfsMounted env.procfs_ret ::
    Event.sdioInitialized env.sdio_ret ::
    (l0.2 ++ l1.2 ++ [Event.usrfsMounted env.mount_usrfs_ret])
  if env.mount_usrfs_ret ≠ 0 then
    (env.mount_usrfs_ret, ((l0.1, l1.1), trace))
  else
    (OK, ((l0.1, l1.1), trace))

/-! ## Helper lemmas -/

theorem partition_handler_match (regRet : Int) (part : partition_s)
    (st : partition_state_t) (h1 : st.partition_num < 10)
    (h2 : part.index = st.partition_num) :
    partition_handler regRet part st =
      (⟨st.partition_num, 0⟩,
        [⟨devnameTemplate.set 12
            (Char.ofNat (((st.partition_num + 48) % 256).toNat)),
          0, "/dev/mmcsd0", part.firstblock, part.nblocks⟩]) := by
  simp [partition_handler, h1, h2]

theorem partition_handler_nomatch (regRet : Int) (part : partition_s)
    (st : partition_state_t)
    (h : ¬(st.partition_num < 10 ∧ part.index = st.partition_num)) :
    partition_handler regRet part st = (st, []) := by
  simp only [partition_handler, if_neg h]

theorem partition_handler_num (regRet : Int) (part : partition_s)
    (st : partition_state_t) :
    (partition_handler regRet part st).1.partition_num = st.partition_num := by
  by_cases h : st.partition_num < 10 ∧ part.index = st.partition_num
  · rw [partition_handler_match regRet part st h.1 h.2]
  · rw [partition_handler_nomatch regRet part st h]

theorem partition_handler_err_zero (regRet : Int) (part : partition_s)
    (st : partition_state_t) (h : st.err = 0) :
    (partition_handler regRet part st).1.err = 0 := by
  by_cases hc : st.partition_num < 10 ∧ part.index = st.partition_num
  · rw [partition_handler_match regRet part st hc.1 hc.2]
  · rw [partition_handler_nomatch regRet part st hc]
    exact h

theorem parse_num (regRet : Int) (table : List partition_s)
    (st : partition_state_t) :
    (parse_block_partition regRet table st).1.partition_num =
      st.partition_num := by
  induction table generalizing st with
  | nil => rfl
  | cons p rest ih =>
    show (parse_block_partition regRet rest
      (partition_handler regRet p st).1).1.partition_num = _
    rw [ih, partition_handler_num]

theorem parse_err_zero (regRet : Int) (table : List partition_s)
    (st : partition_state_t) (h : st.err = 0) :
    (parse_block_partition regRet table st).1.err = 0 := by
  induction table generalizing st with
  | nil => exact h
  | cons p rest ih =>
    show (parse_block_partition regRet rest
      (partition_handler regRet p st).1).1.err = 0
    exact ih _ (partition_handler_err_zero regRet p st h)

theorem parse_found (regRet : Int) (table : List partition_s)
    (st : partition_state_t) (h1 : st.partition_num < 10)
    (h2 : ∃ p ∈ table, p.index = st.partition_num) :
    (parse_block_partition regRet table st).1.err = 0 := by
  induction table generalizing st with
  | nil => exact absurd h2 (by simp)
  | cons p rest ih =>
    show (parse_block_partition regRet rest
      (partition_handler regRet p st).1).1.err = 0
    by_cases hp : p.index = st.partition_num
    · rw [partition_handler_match regRet p st h1 hp]
      exact parse_err_zero regRet rest _ rfl
    · rw [partition_handler_nomatch regRet p st (fun hc => hp hc.2)]
      rcases h2 with ⟨q, hq, hqi⟩
      rcases List.mem_cons.mp hq with hq0 | hq1
      · exact absurd (hq0 ▸ hqi) hp
      · exact ih st h1 ⟨q, hq1, hqi⟩

theorem parse_nomatch (regRet : Int) (table : List partition_s)
    (st : partition_state_t)
    (h : ∀ p ∈ table, p.index ≠ st.partition_num) :
    parse_block_partition regRet table st = (st, []) := by
  induction table with
  | nil => rfl
  | cons p rest ih =>
    have hp : partition_handler regRet p st = (st, []) :=
      partition_handler_nomatch regRet p st
        (fun hc => h p (List.mem_cons_self p rest) hc.2)
    show (let h0 := partition_handler regRet p st
      let r := parse_block_partition regRet rest h0.1
      ((r.1, h0.2 ++ r.2) : partition_state_t × List Registration)) = (st, [])
    rw [hp]
    simp only [ih (fun q hq => h q (List.mem_cons_of_mem p hq)), List.nil_append]

theorem parse_regs_le_count (regRet : Int) (table : List partition_s)
    (st : partition_state_t) :
    ((parse_block_partition regRet table st).2).length ≤
      table.countP (fun p => p.index == st.partition_num) := by
  induction table generalizing st with
  | nil => exact Nat.le_refl 0
  | cons p rest ih =>
    show ((partition_handler regRet p st).2 ++
        (parse_block_partition regRet rest
          (partition_handler regRet p st).1).2).length ≤ _
    rw [List.length_append, List.countP_cons]
    by_cases hc : st.partition_num < 10 ∧ p.index = st.partition_num
    · rw [partition_handler_match regRet p st hc.1 hc.2]
      have hrec := ih (⟨st.partition_num, 0⟩ : partition_state_t)
      simp only [hc.2, beq_self_eq_true, if_pos]
      calc 1 + (parse_block_partition regRet rest
            (⟨st.partition_num, 0⟩ : partition_state_t)).2.length
          ≤ 1 + rest.countP (fun p => p.index == st.partition_num) :=
            Nat.add_le_add_left hrec 1
        _ = rest.countP (fun p => p.index == st.partition_num) + 1 :=
            Nat.add_comm 1 _
    · rw [partition_handler_nomatch regRet p st hc]
      simp only [List.length_nil, Nat.zero_add]
      exact Nat.le_trans (ih st) (Nat.le_add_right _ _)

theorem bringup_ret (env : BringupEnv) (p0 p1 : partition_state_t) :
    (stm32_bringup env p0 p1).1 =
      if env.mount_usrfs_ret ≠ 0 then env.mount_usrfs_ret else OK := by
  by_cases h : env.mount_usrfs_ret ≠ 0 <;> simp [stm32_bringup, h]

theorem bringup_state (env : BringupEnv) (p0 p1 : partition_state_t) :
    (stm32_bringup env p0 p1).2.1 =
      ((parse_block_partition env.reg_ret env.table p0).1,
       (parse_block_partition env.reg_ret env.table p1).1) := by
  by_cases h : env.mount_usrfs_ret ≠ 0 <;> simp [stm32_bringup, loopStep, h]

theorem filter_map_regs_nil (p : Event → Bool)
    (hp : ∀ r : Registration, p (Event.blockPartitionRegistered r) = false)
    (regs : List Registration) :
    (regs.map Event.blockPartitionRegistered).filter p = [] := by
  induction regs with
  | nil => rfl
  | cons r rs ih => simp [List.filter_cons, hp, ih]

theorem loop_filter_parse (regRet : Int) (table : List partition_s)
    (st : partition_state_t) :
    ((loopStep regRet table st).2).filter Event.isParseCall =
      [Event.parseCalled st.partition_num] := by
  by_cases hc : (parse_block_partition regRet table st).1.err = ENOENT <;>
    simp [loopStep, hc, List.filter_cons, List.filter_append,
      Event.isParseCall, filter_map_regs_nil Event.isParseCall (fun _ => rfl)]

theorem loop_no_pwrfs (regRet : Int) (table : List partition_s)
    (st : partition_state_t) :
    ((loopStep regRet table st).2).filter Event.isPwrfsMount = [] := by
  by_cases hc : (parse_block_partition regRet table st).1.err = ENOENT <;>
    simp [loopStep, hc, List.filter_cons, List.filter_append,
      Event.isPwrfsMount, filter_map_regs_nil Event.isPwrfsMount (fun _ => rfl)]

theorem parse_init_iff (regRet : Int) (table : List partition_s) (n : Int)
    (hn : n < 10) :
    ((parse_block_partition regRet table ⟨n, ENOENT⟩).1.err = 0 ↔
      ∃ p ∈ table, p.index = n) ∧
    ((¬∃ p ∈ table, p.index = n) →
      (parse_block_partition regRet table ⟨n, ENOENT⟩).1.err = ENOENT ∧
      (parse_block_partition regRet table ⟨n, ENOENT⟩).2 = []) := by
  constructor
  · constructor
    · intro h0
      by_contra hne
      have hall : ∀ p ∈ table, p.index ≠ n :=
        fun p hp hip => hne ⟨p, hp, hip⟩
      rw [parse_nomatch regRet table ⟨n, ENOENT⟩ hall] at h0
      have hen : ENOENT ≠ 0 := by decide
      exact hen h0
    · intro hex
      exact parse_found regRet table ⟨n, ENOENT⟩ hn hex
  · intro hne
    have hall : ∀ p ∈ table, p.index ≠ n :=
      fun p hp hip => hne ⟨p, hp, hip⟩
    rw [parse_nomatch regRet table ⟨n, ENOENT⟩ hall]
    exact ⟨rfl, rfl⟩

theorem bringup_trace (env : BringupEnv) (p0 p1 : partition_state_t) :
    (stm32_bringup env p0 p1).2.2 =
      Event.sensorRegistered env.ms56xx_ret ::
      Event.procfsMounted env.procfs_ret ::
      Event.sdioInitialized env.sdio_ret ::
      ((loopStep env.reg_ret env.table p0).2 ++
        (loopStep env.reg_ret env.table p1).2 ++
        [Event.usrfsMounted env.mount_usrfs_ret]) := by
  by_cases h : env.mount_usrfs_ret ≠ 0 <;> simp [stm32_bringup, h]

/-! ## Claim C1: storage-controller initialization failure -/

/-- Claim C1 as stated is false: with the storage controller initialization
returning `-5` (and everything else succeeding over an empty partition
table), `stm32_bringup` does not abort — it returns `0`, not `-5`, and
partition discovery is still attempted (the parse call for expected index 0
is in the trace). -/
theorem sdio_failure_not_returned_cex :
    (stm32_bringup (⟨0, 0, -5, [], 0, 0⟩ : BringupEnv)
        partitions_init.1 partitions_init.2).1 = 0 ∧
    Event.parseCalled 0 ∈
      (stm32_bringup (⟨0, 0, -5, [], 0, 0⟩ : BringupEnv)
        partitions_init.1 partitions_init.2).2.2 := by decide

/-- Claim C1 amended: a negative return from the storage-controller
initialization is only logged; bring-up continues — partition discovery and
the mandatory mount still execute — and the returned status does not depend
on the initialization failure (it is the mandatory mount's status when that
is nonzero, `OK` otherwise). -/
theorem sdio_failure_continues (env : BringupEnv) (p0 p1 : partition_state_t)
    (h : env.sdio_ret < 0) :
    (stm32_bringup env p0 p1).1 =
      (if env.mount_usrfs_ret ≠ 0 then env.mount_usrfs_ret else OK) ∧
    Event.parseCalled p0.partition_num ∈ (stm32_bringup env p0 p1).2.2 ∧
    Event.usrfsMounted env.mount_usrfs_ret ∈ (stm32_bringup env p0 p1).2.2 := by
  refine ⟨bringup_ret env p0 p1, ?_, ?_⟩
  · rw [bringup_trace]
    simp [loopStep]
  · rw [bringup_trace]
    simp

/-- Witness for `sdio_failure_continues`: storage-controller init fails with
`-5`, the mandatory mount fails with `-13`, and the return value is the
mount's `-13`, not `-5`; discovery and the mount were still attempted. -/
theorem sdio_failure_continues_witness :
    (stm32_bringup (⟨0, 0, -5, [], 0, -13⟩ : BringupEnv)
        partitions_init.1 partitions_init.2).1 = -13 ∧
    Event.parseCalled 0 ∈
      (stm32_bringup (⟨0, 0, -5, [], 0, -13⟩ : BringupEnv)
        partitions_init.1 partitions_init.2).2.2 ∧
    Event.usrfsMounted (-13) ∈
      (stm32_bringup (⟨0, 0, -5, [], 0, -13⟩ : BringupEnv)
        partitions_init.1 partitions_init.2).2.2 := by
  have h := sdio_failure_continues (⟨0, 0, -5, [], 0, -13⟩ : BringupEnv)
    partitions_init.1 partitions_init.2 (by decide)
  exact ⟨h.1.trans (by decide), h.2.1, h.2.2⟩

/-! ## Claim C2: registration failure recording -/

/-- Claim C2 as stated is false: here the registrar rejects the registration
(its return value is `-12`, ENOMEM) for the matched request of expected index
0, yet the request's recorded error state is `0` (found), not a failure code
distinct from `ENOENT` — the source discards the registrar's return value, so
`err` is set to 0 whether or not registration succeeded. -/
theorem registration_failure_unrecorded_cex :
    (stm32_bringup (⟨0, 0, 0, [⟨0, 100, 400⟩], -12, 0⟩ : BringupEnv)
      partitions_init.1 partitions_init.2).2.1.1.err = 0 := by decide

/-- Claim C2 amended: whenever the match callback accepts an entry (expected
index below 10 and entry index equal to it), it marks the request found
(`err = 0`) regardless of the registrar's return value `regRet`; a
registration failure is never reflected in the request's error state. -/
theorem handler_marks_found_regardless (regRet : Int) (part : partition_s)
    (st : partition_state_t) (h1 : st.partition_num < 10)
    (h2 : part.index = st.partition_num) :
    (partition_handler regRet part st).1.err = 0 := by
  rw [partition_handler_match regRet part st h1 h2]

/-- Witness for `handler_marks_found_regardless` at a rejecting registrar
(return value `-12`). -/
theorem handler_marks_found_regardless_witness :
    (partition_handler (-12) ⟨0, 100, 400⟩ ⟨0, ENOENT⟩).1.err = 0 :=
  handler_marks_found_regardless (-12) ⟨0, 100, 400⟩ ⟨0, ENOENT⟩
    (by decide) (by decide)

/-! ## Claim C4: at most one registration per matched request -/

/-- Claim C4 as stated is false: with a partition table holding two entries
of index 0, the discovery pass for the request expecting index 0 invokes the
block-partition registrar twice, not at most once. -/
theorem duplicate_index_registers_twice_cex :
    ((parse_block_partition 0 [⟨0, 100, 400⟩, ⟨0, 600, 400⟩]
      ⟨0, ENOENT⟩).2).length = 2 := by decide

/-- Claim C4 amended: the registrar is invoked once per table entry whose
index equals the request's expected index, so when the table holds at most
one entry with that index (as any well-formed partition table does), at most
one registered block device is created per matched request. -/
theorem at_most_one_registration (regRet : Int) (table : List partition_s)
    (st : partition_state_t)
    (h : table.countP (fun p => p.index == st.partition_num) ≤ 1) :
    ((parse_block_partition regRet table st).2).length ≤ 1 :=
  Nat.le_trans (parse_regs_le_count regRet table st) h

/-- Witness for `at_most_one_registration` on a table with one entry of
index 0 and one of index 1, for the request expecting index 0. -/
theorem at_most_one_registration_witness :
    ((parse_block_partition 0 [⟨0, 100, 400⟩, ⟨1, 600, 400⟩]
      ⟨0, ENOENT⟩).2).length ≤ 1 :=
  at_most_one_registration 0 [⟨0, 100, 400⟩, ⟨1, 600, 400⟩]
    ⟨0, ENOENT⟩ (by decide)

/-! ## Claim C6: indices outside 0–9 -/

/-- Claim C6 as stated is false for negative expected indices: the source
guard only checks `partition_num < 10`, so for expected index `-1` and a
table entry of index `-1` the callback accepts the entry (marks the request
found) and invokes the registrar. -/
theorem negative_index_accepted_cex :
    (partition_handler 0 ⟨-1, 100, 400⟩ ⟨-1, ENOENT⟩).1.err = 0 ∧
    ((partition_handler 0 ⟨-1, 100, 400⟩ ⟨-1, ENOENT⟩).2).length = 1 := by
  decide

/-- Claim C6 amended: for every expected index of 10 or more the match
callback never accepts a discovered partition and never invokes the
registrar — the callback state is returned unchanged — even if the table
reports an entry with that index; negative expected indices, however, are
not rejected by the guard. -/
theorem index_ge_ten_never_matched (regRet : Int) (part : partition_s)
    (st : partition_state_t) (h : 10 ≤ st.partition_num) :
    partition_handler regRet part st = (st, []) :=
  partition_handler_nomatch regRet part st
    (fun hc => absurd hc.1 (by omega))

/-- Witness for `index_ge_ten_never_matched` at expected index 10 with a
table entry of index 10. -/
theorem index_ge_ten_never_matched_witness :
    partition_handler 0 ⟨10, 100, 400⟩ ⟨10, ENOENT⟩ =
      ((⟨10, ENOENT⟩ : partition_state_t), []) :=
  index_ge_ten_never_matched 0 ⟨10, 100, 400⟩ ⟨10, ENOENT⟩ (by decide)

/-! ## Claim C7: name and span of the registered sub-device -/

/-- Claim C7: for a matched expected index `i` in 0–9 the registered
sub-device's name is the template `/dev/mmcsd0p0` with its final digit
replaced by the digit of `i` (character code `48 + i`), registered with
minor 0 on parent `/dev/mmcsd0` with block range
`[firstblock, firstblock + nblocks)` of the discovered partition. -/
theorem matched_registration_fields (regRet : Int) (part : partition_s)
    (st : partition_state_t) (h0 : 0 ≤ st.partition_num)
    (h1 : st.partition_num < 10) (h2 : part.index = st.partition_num) :
    (partition_handler regRet part st).2 =
      [⟨"/dev/mmcsd0p".data ++ [Char.ofNat (48 + st.partition_num.toNat)],
        0, "/dev/mmcsd0", part.firstblock, part.nblocks⟩] := by
  rw [partition_handler_match regRet part st h1 h2]
  have h256 : (st.partition_num + 48) % 256 = st.partition_num + 48 :=
    Int.emod_eq_of_lt (by omega) (by omega)
  have htn : (st.partition_num + 48).toNat = 48 + st.partition_num.toNat := by
    omega
  rw [h256, htn]
  rfl

/-- Witness for `matched_registration_fields` at expected index 1: the child
device is `/dev/mmcsd0p1` spanning blocks `[600, 600 + 400)`. -/
theorem matched_registration_fields_witness :
    (partition_handler 0 ⟨1, 600, 400⟩ ⟨1, ENOENT⟩).2 =
      [⟨"/dev/mmcsd0p".data ++ [Char.ofNat (48 + (1 : Int).toNat)],
        0, "/dev/mmcsd0", 600, 400⟩] :=
  matched_registration_fields 0 ⟨1, 600, 400⟩ ⟨1, ENOENT⟩
    (by decide) (by decide) (by decide)

/-! ## Claim C3: mandatory mount failure -/

/-- Claim C3: when the mandatory vfat mount of `/dev/mmcsd0p0` on
`/mnt/usrfs` returns a nonzero status, `stm32_bringup` returns exactly that
status; the power-safe mount never occurs (its events are absent from the
trace), and the mandatory mount is the last step of the trace — nothing
executes after it. -/
theorem mandatory_mount_failure_aborts (env : BringupEnv)
    (p0 p1 : partition_state_t) (h : env.mount_usrfs_ret ≠ 0) :
    (stm32_bringup env p0 p1).1 = env.mount_usrfs_ret ∧
    ((stm32_bringup env p0 p1).2.2).filter Event.isPwrfsMount = [] ∧
    ((stm32_bringup env p0 p1).2.2).getLast? =
      some (Event.usrfsMounted env.mount_usrfs_ret) := by
  refine ⟨?_, ?_, ?_⟩
  · rw [bringup_ret, if_pos h]
  · rw [bringup_trace]
    simp [List.filter_cons, List.filter_append, Event.isPwrfsMount,
      loop_no_pwrfs]
  · rw [bringup_trace]
    rw [show (Event.sensorRegistered env.ms56xx_ret ::
        Event.procfsMounted env.procfs_ret ::
        Event.sdioInitialized env.sdio_ret ::
        ((loopStep env.reg_ret env.table p0).2 ++
          (loopStep env.reg_ret env.table p1).2 ++
          [Event.usrfsMounted env.mount_usrfs_ret])) =
        (Event.sensorRegistered env.ms56xx_ret ::
        Event.procfsMounted env.procfs_ret ::
        Event.sdioInitialized env.sdio_ret ::
        ((loopStep env.reg_ret env.table p0).2 ++
          (loopStep env.reg_ret env.table p1).2)) ++
        [Event.usrfsMounted env.mount_usrfs_ret] by simp]
    exact List.getLast?_concat _

/-- Witness for `mandatory_mount_failure_aborts` at a mount failing with
`-22`. -/
theorem mandatory_mount_failure_aborts_witness :
    (stm32_bringup (⟨0, 0, 0, [], 0, -22⟩ : BringupEnv)
        partitions_init.1 partitions_init.2).1 = -22 ∧
    ((stm32_bringup (⟨0, 0, 0, [], 0, -22⟩ : BringupEnv)
        partitions_init.1 partitions_init.2).2.2).filter
      Event.isPwrfsMount = [] ∧
    ((stm32_bringup (⟨0, 0, 0, [], 0, -22⟩ : BringupEnv)
        partitions_init.1 partitions_init.2).2.2).getLast? =
      some (Event.usrfsMounted (-22)) := by
  have h := mandatory_mount_failure_aborts (⟨0, 0, 0, [], 0, -22⟩ : BringupEnv)
    partitions_init.1 partitions_init.2 (by decide)
  exact ⟨h.1, h.2.1, h.2.2⟩

/-! ## Claim C5: found iff a matching partition was discovered -/

/-- Claim C5: running `stm32_bringup` from the initial (static-initializer)
request states, each request ends with `err = 0` exactly when the partition
table holds an entry whose index equals its expected index (0 resp. 1), and
each request either ends found or ends with `err = ENOENT` with no registrar
invocation made during its discovery pass. -/
theorem discovery_found_iff (env : BringupEnv) :
    (((stm32_bringup env partitions_init.1 partitions_init.2).2.1.1).err = 0 ↔
      ∃ p ∈ env.table, p.index = 0) ∧
    (((stm32_bringup env partitions_init.1 partitions_init.2).2.1.2).err = 0 ↔
      ∃ p ∈ env.table, p.index = 1) ∧
    (((stm32_bringup env partitions_init.1 partitions_init.2).2.1.1).err = 0 ∨
      ((stm32_bringup env partitions_init.1 partitions_init.2).2.1.1).err =
          ENOENT ∧
        (parse_block_partition env.reg_ret env.table
          partitions_init.1).2 = []) ∧
    (((stm32_bringup env partitions_init.1 partitions_init.2).2.1.2).err = 0 ∨
      ((stm32_bringup env partitions_init.1 partitions_init.2).2.1.2).err =
          ENOENT ∧
        (parse_block_partition env.reg_ret env.table
          partitions_init.2).2 = []) := by
  have h0 := parse_init_iff env.reg_ret env.table 0 (by decide)
  have h1 := parse_init_iff env.reg_ret env.table 1 (by decide)
  rw [bringup_state]
  refine ⟨h0.1, h1.1, ?_, ?_⟩
  · by_cases hex : ∃ p ∈ env.table, p.index = 0
    · exact Or.inl (h0.1.mpr hex)
    · exact Or.inr (h0.2 hex)
  · by_cases hex : ∃ p ∈ env.table, p.index = 1
    · exact Or.inl (h1.1.mpr hex)
    · exact Or.inr (h1.2 hex)

/-! ## Claim C8: success despite auxiliary failures -/

/-- Claim C8: whenever the mandatory vfat mount succeeds (status 0),
`stm32_bringup` returns `OK` — whatever the sensor registration, procfs
mount, storage-controller initialization or registrar results were (the
power-safe mount is disabled in the source and never runs). -/
theorem mount_success_returns_ok (env : BringupEnv)
    (p0 p1 : partition_state_t) (h : env.mount_usrfs_ret = 0) :
    (stm32_bringup env p0 p1).1 = OK := by
  rw [bringup_ret]
  simp [h]

/-- Witness for `mount_success_returns_ok` with failing auxiliary steps:
sensor registration returned `-19` and the procfs mount `-22`, yet the
result is `OK`. -/
theorem mount_success_returns_ok_witness :
    (stm32_bringup (⟨-19, -22, 0, [], 0, 0⟩ : BringupEnv)
        partitions_init.1 partitions_init.2).1 = OK :=
  mount_success_returns_ok (⟨-19, -22, 0, [], 0, 0⟩ : BringupEnv)
    partitions_init.1 partitions_init.2 rfl

/-! ## Claim C9: exactly one scan per expected index -/

/-- Claim C9: for every environment and every starting request states, the
trace of `stm32_bringup` contains exactly two invocations of the partition
parsing facility, one per request slot in order — independent of the
requests' outcomes, the table contents, and every other step's result. -/
theorem discovery_scans_once_per_request (env : BringupEnv)
    (p0 p1 : partition_state_t) :
    ((stm32_bringup env p0 p1).2.2).filter Event.isParseCall =
      [Event.parseCalled p0.partition_num,
        Event.parseCalled p1.partition_num] := by
  rw [bringup_trace]
  simp [List.filter_cons, List.filter_append, Event.isParseCall,
    loop_filter_parse]

/-! ## Claim C10: the static request array persists across invocations -/

/-- Claim C10: the `partitions` array is static, so a second invocation of
`stm32_bringup` starts from the state the first left behind; if the first
run's table held a partition of index 0 and the second run's table is empty,
the second run still ends with request 0 marked found (`err = 0`) and logs
it as registered. -/
theorem static_requests_persist (env1 env2 : BringupEnv)
    (h1 : ∃ p ∈ env1.table, p.index = 0) (h2 : env2.table = []) :
    ((stm32_bringup env2
        (stm32_bringup env1 partitions_init.1 partitions_init.2).2.1.1
        (stm32_bringup env1
          partitions_init.1 partitions_init.2).2.1.2).2.1.1).err = 0 ∧
    Event.logPartitionRegistered 0 true ∈
      (stm32_bringup env2
        (stm32_bringup env1 partitions_init.1 partitions_init.2).2.1.1
        (stm32_bringup env1
          partitions_init.1 partitions_init.2).2.1.2).2.2 := by
  have hs_err :
      ((stm32_bringup env1 partitions_init.1 partitions_init.2).2.1.1).err
        = 0 := by
    rw [bringup_state]
    exact parse_found env1.reg_ret env1.table partitions_init.1 (by decide) h1
  have hs_num :
      ((stm32_bringup env1
        partitions_init.1 partitions_init.2).2.1.1).partition_num = 0 := by
    rw [bringup_state]
    exact parse_num env1.reg_ret env1.table partitions_init.1
  constructor
  · rw [bringup_state env2, h2]
    exact hs_err
  · rw [bringup_trace env2, h2]
    simp [loopStep, parse_block_partition, hs_err, hs_num, ENOENT]

/-- Witness for `static_requests_persist`: first run over a table holding
partition 0, second run over an empty table; the second run still reports
request 0 as found. -/
theorem static_requests_persist_witness :
    ((stm32_bringup (⟨0, 0, 0, [], 0, 0⟩ : BringupEnv)
        (stm32_bringup (⟨0, 0, 0, [⟨0, 100, 400⟩], 0, 0⟩ : BringupEnv)
          partitions_init.1 partitions_init.2).2.1.1
        (stm32_bringup (⟨0, 0, 0, [⟨0, 100, 400⟩], 0, 0⟩ : BringupEnv)
          partitions_init.1 partitions_init.2).2.1.2).2.1.1).err = 0 ∧
    Event.logPartitionRegistered 0 true ∈
      (stm32_bringup (⟨0, 0, 0, [], 0, 0⟩ : BringupEnv)
        (stm32_bringup (⟨0, 0, 0, [⟨0, 100, 400⟩], 0, 0⟩ : BringupEnv)
          partitions_init.1 partitions_init.2).2.1.1
        (stm32_bringup (⟨0, 0, 0, [⟨0, 100, 400⟩], 0, 0⟩ : BringupEnv)
          partitions_init.1 partitions_init.2).2.1.2).2.2 :=
  static_requests_persist (⟨0, 0, 0, [⟨0, 100, 400⟩], 0, 0⟩ : BringupEnv)
    (⟨0, 0, 0, [], 0, 0⟩ : BringupEnv) (by decide) rfl

end JoshNx
